import Mathlib

/-!
Shallow embedding of the access-control and request-accounting layer of the
Open-Upload backend (src/backend), together with theorems checking the
natural-language specification against it.

Conventions of the embedding:
- Database rows are Lean structures mirroring the SQLModel classes in
  src/backend/models.py; the database is a record of lists of rows.
- Timestamps are naturals (an abstract clock); response times are rationals
  (Python floats carrying millisecond values).
- A handler returns an `Outcome`: `ok` for a successful response,
  `http e` for a raised `HTTPException e`, and `exn s` for an unhandled
  Python exception propagating out of the handler (which the framework
  turns into a 500 response).
- Fallible persistence (session.commit) is modelled by explicit boolean
  parameters saying whether the commit raises; the mainline behaviour is
  the `false` instantiation.
-/

namespace OpenUpload

/-- models.py `User` (firebase_uid primary key, email). -/
structure User where
  firebase_uid : String
  email : String
  deriving Repr, DecidableEq

/-- models.py `Project`. -/
structure Project where
  id : Nat
  name : String
  user_firebase_uid : String
  deriving Repr, DecidableEq

/-- models.py `ApiKey`. `last_used_at` is `none` until first use. -/
structure ApiKey where
  id : Nat
  key : String
  is_active : Bool
  last_used_at : Option Nat
  user_firebase_uid : String
  project_id : Nat
  deriving Repr, DecidableEq

/-- models.py `ApiUsage` (one usage event row). -/
structure ApiUsage where
  timestamp : Nat
  endpoint : String
  response_time : Rat
  status_code : Nat
  user_firebase_uid : String
  project_id : Nat
  api_key_id : Nat
  deriving Repr, DecidableEq

/-- models.py `File` (a stored file record). -/
structure File where
  id : Nat
  filename : String
  size : Nat
  mime_type : String
  storage_path : String
  project_id : Nat
  user_firebase_uid : String
  deriving Repr, DecidableEq

/-- The relational state: one list per table, plus the upload directory on
disk as the set of stored blob paths. -/
structure DB where
  users : List User
  projects : List Project
  api_keys : List ApiKey
  usage : List ApiUsage
  files : List File
  disk : List String
  deriving Repr, DecidableEq

/-- fastapi.HTTPException: a status code and a detail message. -/
structure HTTPException where
  status_code : Nat
  detail : String
  deriving Repr, DecidableEq

/-- Result of running a handler: a successful value, a raised
`HTTPException`, or an unhandled exception (message) that the framework
maps to a 500 response. -/
inductive Outcome (α : Type) where
  | ok : α → Outcome α
  | http : HTTPException → Outcome α
  | exn : String → Outcome α
  deriving Repr, DecidableEq

/-- `session.get(User, uid)` — primary-key lookup. -/
def getUser (db : DB) (uid : String) : Option User :=
  db.users.find? (fun u => u.firebase_uid == uid)

/-- `session.get(Project, pid)` — primary-key lookup. -/
def getProject (db : DB) (pid : Nat) : Option Project :=
  db.projects.find? (fun p => p.id == pid)

/-- `session.get(File, fid)` — primary-key lookup. -/
def getFile (db : DB) (fid : Nat) : Option File :=
  db.files.find? (fun f => f.id == fid)

/-- auth.py line 30: `select(ApiKey).where(ApiKey.key == api_key,
ApiKey.is_active == True)` followed by `.first()`. -/
def findActiveKey (db : DB) (token : String) : Option ApiKey :=
  db.api_keys.find? (fun k => k.key == token && k.is_active)

/-- auth.py lines 41-43: set the key row's `last_used_at` and commit. -/
def updateKeyLastUsed (db : DB) (kid : Nat) (now : Nat) : DB :=
  { db with api_keys :=
      db.api_keys.map (fun k =>
        if k.id == kid then { k with last_used_at := some now } else k) }

/-- auth.py `get_api_key_user`: validates the `X-API-Key` header and
returns the (user, project, key) triple, raising 401 on a missing token,
on a token matching no active key, or on a key whose user or project row
is missing.  `commitFails` says whether the `session.commit()` of the
`last_used_at` update (line 43) raises; the code has no try/except around
it, so a raise propagates out of the dependency unhandled. -/
def get_api_key_user (db : DB) (api_key : Option String) (now : Nat)
    (commitFails : Bool) :
    Outcome (User × Project × ApiKey) × DB :=
  match api_key with
  | none => (.http ⟨401, "API key is required"⟩, db)
  | some tok =>
    -- `if not api_key` is also true for the empty string
    if tok = "" then (.http ⟨401, "API key is required"⟩, db)
    else
      match findActiveKey db tok with
      | none => (.http ⟨401, "Invalid or inactive API key"⟩, db)
      | some db_key =>
        if commitFails then
          -- the commit of last_used_at raised; nothing was persisted and
          -- the exception propagates out of the dependency
          (.exn "commit failed", db)
        else
          let db1 := updateKeyLastUsed db db_key.id now
          let key1 := { db_key with last_used_at := some now }
          match getUser db1 db_key.user_firebase_uid,
                getProject db1 db_key.project_id with
          | some user, some project => (.ok (user, project, key1), db1)
          | _, _ =>
            (.http ⟨401, "API key is invalid (missing user or project)"⟩, db1)

/-- helpers/Firebase_helpers.py `FirebaseUser`: the verified identity
claim (uid, email, roles, display name). -/
structure FirebaseUser where
  uid : String
  email : String
  roles : List String
  name : String
  deriving Repr, DecidableEq

/-- How the `session.commit()` of the new-user insert in
`get_current_db_user` ends: success, a duplicate-key constraint
violation, or some other persistence error. -/
inductive InsertResult where
  | ok : InsertResult
  | dupKey : InsertResult
  | otherErr : InsertResult
  deriving Repr, DecidableEq

/-- auth.py `get_current_db_user`: look the Firebase user up by uid,
returning the row if present; otherwise insert a new `User` row.  The
code wraps only `session.commit()` in `try`, and its `except Exception`
branch rolls back and raises a 500 for every failure — duplicate-key
constraint violations included (the comment at line 95 notes race
handling as not done). -/
def get_current_db_user (db : DB) (firebase_user : FirebaseUser)
    (insertResult : InsertResult) : Outcome User × DB :=
  match db.users.find? (fun u => u.firebase_uid == firebase_user.uid) with
  | some db_user => (.ok db_user, db)
  | none =>
    let new_user : User :=
      { firebase_uid := firebase_user.uid, email := firebase_user.email }
    match insertResult with
    | .ok => (.ok new_user, { db with users := db.users ++ [new_user] })
    | _ =>
      -- session.rollback(); raise HTTPException(500, ...)
      (.http ⟨500, "Could not create user profile in the database."⟩, db)

/-- helpers/Firebase_helpers.py `role_based_access(...)`'s inner
`check_role` dependency.  `claimsLookup` is the result of
`auth.get_user(uid)`: `none` when Firebase raises `UserNotFoundError`,
otherwise the `roles` custom claim.  Note the source raises its 403
`HTTPException` INSIDE the `try` block whose final `except Exception`
catches every exception, so the 403 is intercepted and re-raised as a
500 "Error retrieving user claims" response. -/
def check_role (required_roles : List String)
    (claimsLookup : Option (List String)) : Outcome Unit :=
  match claimsLookup with
  | none => .http ⟨404, "User not found"⟩
  | some roles =>
    let missing_roles := required_roles.filter (fun r => !(roles.contains r))
    let missing_roles := if roles.contains "developer" then [] else missing_roles
    if missing_roles.isEmpty then .ok ()
    else
      -- raise HTTPException(403, ...) is swallowed by `except Exception`
      -- and re-raised as a 500
      .http ⟨500, "Error retrieving user claims: 403 missing roles"⟩

/-- routes/api_keys.py `verify_api_key` (bearer path): select the key
where key == token AND owner == caller AND is_active, 404 when no row
matches. -/
def verify_api_key (db : DB) (api_key : String) (current_user : User) :
    Outcome ApiKey :=
  match db.api_keys.find? (fun k =>
      k.key == api_key
        && k.user_firebase_uid == current_user.firebase_uid
        && k.is_active) with
  | some db_key => .ok db_key
  | none => .http ⟨404, "API key not found or not owned by user"⟩

/-- routes/files.py `track_api_usage`: build one `ApiUsage` row and
commit it.  `response_time` is the elapsed wall-clock in ms.  The commit
is not guarded; `commitFails = true` means `session.commit()` raises, in
which case nothing is persisted and the exception propagates to the
caller. -/
def track_api_usage (db : DB) (endpoint : String) (user_firebase_uid : String)
    (project_id api_key_id : Nat) (status_code : Nat) (elapsed : Rat)
    (now : Nat) (commitFails : Bool) : Outcome Unit × DB :=
  let usage : ApiUsage :=
    { timestamp := now, endpoint := endpoint, response_time := elapsed,
      status_code := status_code, user_firebase_uid := user_firebase_uid,
      project_id := project_id, api_key_id := api_key_id }
  if commitFails then (.exn "commit failed", db)
  else (.ok (), { db with usage := db.usage ++ [usage] })

/-- `mimetypes.guess_type(filename)[0] or "application/octet-stream"`;
the guess itself is a collaborator, passed in as `mimeGuess`. -/
def guessedMime (mimeGuess : Option String) : String :=
  mimeGuess.getD "application/octet-stream"

/-- `max id + 1` primary key for a fresh `File` row. -/
def nextFileId (db : DB) : Nat :=
  (db.files.map (fun f => f.id)).foldr max 0 + 1

/-- The body of routes/files.py `upload_file` (API-key path), after the
`get_api_key_user` dependency has produced `(user, project, api_key)`.
`saveFails` abstracts any exception inside the `try` before the first
`track_api_usage` call (disk write or record commit failing); the
`except` branch then records a 500 event and re-raises.  If the
success-path `track_api_usage` itself raises, control also reaches the
`except` branch, whose own `track_api_usage` raises again and that
exception propagates. -/
def upload_file_body (db : DB) (user : User) (project : Project)
    (api_key : ApiKey) (filename : String) (size : Nat)
    (mimeGuess : Option String) (timestamp : String) (elapsed : Rat)
    (now : Nat) (saveFails trackFails : Bool) : Outcome File × DB :=
  if saveFails then
    match track_api_usage db "/api/v1/files/upload" user.firebase_uid
        project.id api_key.id 500 elapsed now trackFails with
    | (.ok _, db1) => (.exn "upload failed", db1)
    | (_, db1) => (.exn "commit failed", db1)
  else
    let path := "db/uploads/" ++ toString project.id ++ "/"
        ++ timestamp ++ "_" ++ filename
    let db_file : File :=
      { id := nextFileId db, filename := filename, size := size,
        mime_type := guessedMime mimeGuess, storage_path := path,
        project_id := project.id, user_firebase_uid := user.firebase_uid }
    let db1 := { db with files := db.files ++ [db_file],
                         disk := db.disk ++ [path] }
    match track_api_usage db1 "/api/v1/files/upload" user.firebase_uid
        project.id api_key.id 200 elapsed now trackFails with
    | (.ok _, db2) => (.ok db_file, db2)
    | (_, db2) =>
      -- track raised inside the try; the except branch tracks a 500,
      -- which raises again, and that exception propagates
      match track_api_usage db2 "/api/v1/files/upload" user.firebase_uid
          project.id api_key.id 500 elapsed now trackFails with
      | (_, db3) => (.exn "commit failed", db3)

/-- routes/files.py `upload_file` (API-key path), end to end: resolve
the key with `get_api_key_user`, then run the handler body. -/
def upload_file (db : DB) (token : Option String) (filename : String)
    (size : Nat) (mimeGuess : Option String) (timestamp : String)
    (elapsed : Rat) (now : Nat)
    (authCommitFails saveFails trackFails : Bool) : Outcome File × DB :=
  match get_api_key_user db token now authCommitFails with
  | (.ok (user, project, api_key), db1) =>
    upload_file_body db1 user project api_key filename size mimeGuess
      timestamp elapsed now saveFails trackFails
  | (.http e, db1) => (.http e, db1)
  | (.exn s, db1) => (.exn s, db1)

/-- The body of routes/files.py `list_files` (API-key path): select the
project's files with offset/limit, record a 200 usage event, return the
list.  If the usage commit raises inside the try, the except branch
records a 500, which raises again, and that exception propagates. -/
def list_files_api_body (db : DB) (user : User) (project : Project)
    (api_key : ApiKey) (skip limit : Nat) (elapsed : Rat) (now : Nat)
    (trackFails : Bool) : Outcome (List File) × DB :=
  let files := ((db.files.filter (fun f => f.project_id == project.id)).drop
      skip).take limit
  match track_api_usage db "/api/v1/files/list" user.firebase_uid project.id
      api_key.id 200 elapsed now trackFails with
  | (.ok _, db1) => (.ok files, db1)
  | (_, db1) =>
    match track_api_usage db1 "/api/v1/files/list" user.firebase_uid
        project.id api_key.id 500 elapsed now trackFails with
    | (_, db2) => (.exn "commit failed", db2)

/-- routes/files.py `list_files` (API-key path), end to end. -/
def list_files_api (db : DB) (token : Option String) (skip limit : Nat)
    (elapsed : Rat) (now : Nat) (authCommitFails trackFails : Bool) :
    Outcome (List File) × DB :=
  match get_api_key_user db token now authCommitFails with
  | (.ok (user, project, api_key), db1) =>
    list_files_api_body db1 user project api_key skip limit elapsed now
      trackFails
  | (.http e, db1) => (.http e, db1)
  | (.exn s, db1) => (.exn s, db1)

/-- The body of routes/files.py `delete_file` (API-key path): existence
check (404) then project-binding check (403), each recorded by
`track_api_usage` before the `HTTPException` is raised; on success,
unlink the blob, delete the row, record a 204.  The final `except`
re-raises `HTTPException`s untouched and records a 500 for anything
else. -/
def delete_file_api_body (db : DB) (user : User) (project : Project)
    (api_key : ApiKey) (file_id : Nat) (elapsed : Rat) (now : Nat)
    (trackFails : Bool) : Outcome Unit × DB :=
  let ep := "/api/v1/files/" ++ toString file_id
  match getFile db file_id with
  | none =>
    match track_api_usage db ep user.firebase_uid project.id api_key.id
        404 elapsed now trackFails with
    | (.ok _, db1) => (.http ⟨404, "File not found"⟩, db1)
    | (_, db1) =>
      match track_api_usage db1 ep user.firebase_uid project.id api_key.id
          500 elapsed now trackFails with
      | (_, db2) => (.exn "commit failed", db2)
  | some file =>
    if file.project_id ≠ project.id then
      match track_api_usage db ep user.firebase_uid project.id api_key.id
          403 elapsed now trackFails with
      | (.ok _, db1) =>
        (.http ⟨403, "Not authorized to delete this file"⟩, db1)
      | (_, db1) =>
        match track_api_usage db1 ep user.firebase_uid project.id api_key.id
            500 elapsed now trackFails with
        | (_, db2) => (.exn "commit failed", db2)
    else
      let db1 := { db with disk := db.disk.filter (fun p => p ≠ file.storage_path) }
      let db2 := { db1 with files := db1.files.filter (fun g => g.id ≠ file.id) }
      match track_api_usage db2 ep user.firebase_uid project.id api_key.id
          204 elapsed now trackFails with
      | (.ok _, db3) => (.ok (), db3)
      | (_, db3) =>
        match track_api_usage db3 ep user.firebase_uid project.id api_key.id
            500 elapsed now trackFails with
        | (_, db4) => (.exn "commit failed", db4)

/-- routes/files.py `delete_file` (API-key path), end to end. -/
def delete_file_api (db : DB) (token : Option String) (file_id : Nat)
    (elapsed : Rat) (now : Nat) (authCommitFails trackFails : Bool) :
    Outcome Unit × DB :=
  match get_api_key_user db token now authCommitFails with
  | (.ok (user, project, api_key), db1) =>
    delete_file_api_body db1 user project api_key file_id elapsed now
      trackFails
  | (.http e, db1) => (.http e, db1)
  | (.exn s, db1) => (.exn s, db1)

/-- routes/projects.py `get_project_info` (API-key path): returns the
key's bound project.  There is no `track_api_usage` call anywhere in
this handler. -/
def get_project_info (db : DB) (token : Option String) (now : Nat)
    (authCommitFails : Bool) : Outcome Project × DB :=
  match get_api_key_user db token now authCommitFails with
  | (.ok (_, project, _), db1) => (.ok project, db1)
  | (.http e, db1) => (.http e, db1)
  | (.exn s, db1) => (.exn s, db1)

/-- routes/usage.py `get_dashboard_stats`, lines 67-71: the percentage
change between the previous and current 30-day request counts.  Python
true division on ints is modelled on ℚ. -/
def change_percentage (previous_requests current_requests : Nat) : Rat :=
  if previous_requests > 0 then
    (((current_requests : Rat) - (previous_requests : Rat))
      / (previous_requests : Rat)) * 100
  else if current_requests == 0 then 0 else 100

/-- SQL `avg(x)` over the selected rows: NULL (none) when there are no
rows. -/
def sqlAvg (xs : List Rat) : Option Rat :=
  if xs.isEmpty then none else some (xs.sum / (xs.length : Rat))

/-- SQL `sum(case when status_code < 400 then 1 else 0 end) * 100.0 /
count(id)` over the selected rows: the sum is NULL over zero rows and
NULL propagates, so the whole expression is NULL (none) when the
selection is empty. -/
def sqlSuccessRate (rows : List ApiUsage) : Option Rat :=
  if rows.isEmpty then none
  else some (((rows.filter (fun e => e.status_code < 400)).length : Rat)
      * 100 / (rows.length : Rat))

/-- Python `x or d` on an optional float: `None` and `0.0` are both
falsy and give the default. -/
def pyOr (x : Option Rat) (d : Rat) : Rat :=
  match x with
  | none => d
  | some v => if v = 0 then d else v

/-- Row filter of routes/usage.py `get_api_key_stats`: events of this
key inside `[start_date, end_date]` (both endpoints inclusive in the
query). -/
def inKeyWindow (e : ApiUsage) (api_key_id : Nat) (start_d end_d : Nat) : Bool :=
  e.api_key_id == api_key_id && start_d ≤ e.timestamp && e.timestamp ≤ end_d

/-- The stats record returned by the usage endpoints
(models.py `ApiUsageStats`). -/
structure ApiUsageStats where
  date : String
  api_calls : Nat
  avg_response_time : Rat
  success_rate : Rat
  deriving Repr, DecidableEq

/-- routes/usage.py `get_api_key_stats` (API-key path), after the key
has been resolved: aggregate the key's events in the window, defaulting
a NULL average to 0 and a NULL success rate to 100.0 via Python `or`.
There is no `track_api_usage` call in this handler either. -/
def get_api_key_stats (db : DB) (api_key : ApiKey) (start_d end_d : Nat)
    (dateStr : String) : ApiUsageStats :=
  let rows := db.usage.filter (fun e => inKeyWindow e api_key.id start_d end_d)
  { date := dateStr,
    api_calls := rows.length,
    avg_response_time := pyOr (sqlAvg (rows.map (fun e => e.response_time))) 0,
    success_rate := pyOr (sqlSuccessRate rows) 100 }

/-- routes/usage.py `get_api_key_stats` (API-key path), end to end:
resolve the key, then aggregate; the window bounds stand for the
`days`-derived date range.  The handler contains no `track_api_usage`
call. -/
def get_api_key_stats_route (db : DB) (token : Option String) (now : Nat)
    (authCommitFails : Bool) (start_d end_d : Nat) (dateStr : String) :
    Outcome ApiUsageStats × DB :=
  match get_api_key_user db token now authCommitFails with
  | (.ok (_, _, api_key), db1) =>
    (.ok (get_api_key_stats db1 api_key start_d end_d dateStr), db1)
  | (.http e, db1) => (.http e, db1)
  | (.exn s, db1) => (.exn s, db1)

/-! Concrete fixtures used by counterexamples and witnesses. -/

/-- A user. -/
def exUser : User := { firebase_uid := "uid1", email := "a@b.c" }

/-- A project owned by `exUser`. -/
def exProject : Project := { id := 1, name := "p1", user_firebase_uid := "uid1" }

/-- An active API key of `exUser` bound to `exProject`. -/
def exKey : ApiKey :=
  { id := 7, key := "tok1", is_active := true, last_used_at := none,
    user_firebase_uid := "uid1", project_id := 1 }

/-- The same key, deactivated. -/
def exKeyInactive : ApiKey := { exKey with is_active := false }

/-- A database holding `exUser`, `exProject` and `exKey`. -/
def exDB : DB :=
  { users := [exUser], projects := [exProject], api_keys := [exKey],
    usage := [], files := [], disk := [] }

/-- The empty database. -/
def emptyDB : DB :=
  { users := [], projects := [], api_keys := [], usage := [], files := [],
    disk := [] }

/-- A database whose only key is the deactivated `exKeyInactive`,
still owned by `exUser`. -/
def dbInactive : DB := { exDB with api_keys := [exKeyInactive] }

/-- A database holding `exKey` but neither its owner row nor its project
row (dangling foreign keys). -/
def dbOrphan : DB := { emptyDB with api_keys := [exKey] }

/-- An identity claim for a subject absent from `emptyDB`. -/
def exClaim : FirebaseUser :=
  { uid := "uid1", email := "a@b.c", roles := [], name := "n" }

/-- A file stored under `exProject`. -/
def exFile : File :=
  { id := 3, filename := "f.txt", size := 3, mime_type := "text/plain",
    storage_path := "db/uploads/1/x_f.txt", project_id := 1,
    user_firebase_uid := "uid1" }

/-- A file stored under a different project. -/
def exFileForeign : File :=
  { id := 4, filename := "g.txt", size := 4, mime_type := "text/plain",
    storage_path := "db/uploads/2/x_g.txt", project_id := 2,
    user_firebase_uid := "uid2" }

/-- `exDB` extended with one file of the key's project and one foreign
file. -/
def dbFiles : DB := { exDB with files := [exFile, exFileForeign] }

/-! Theorems settling the claims. -/

/-- C4: a token matching no stored key and a token matching an inactive
key both fail API-key resolution with the same 401
"Invalid or inactive API key" error (the two cases share one code path
and one error value), while a missing or empty token fails with the
distinct 401 "API key is required" error. -/
theorem C4_invalid_and_inactive_same_401 (db : DB) (now : Nat) (cf : Bool)
    (tok : String) :
    get_api_key_user db none now cf = (.http ⟨401, "API key is required"⟩, db) ∧
    get_api_key_user db (some "") now cf
      = (.http ⟨401, "API key is required"⟩, db) ∧
    (tok ≠ "" → (∀ k ∈ db.api_keys, ¬(k.key = tok ∧ k.is_active = true)) →
      get_api_key_user db (some tok) now cf
        = (.http ⟨401, "Invalid or inactive API key"⟩, db)) ∧
    (⟨401, "API key is required"⟩ : HTTPException)
      ≠ ⟨401, "Invalid or inactive API key"⟩ := by
  refine ⟨rfl, rfl, ?_, by decide⟩
  intro htok h
  have hfind : findActiveKey db tok = none := by
    rw [findActiveKey, List.find?_eq_none]
    intro k hk
    have := h k hk
    simp only [Bool.and_eq_true, beq_iff_eq, not_and]
    intro hkey hact
    exact this ⟨hkey, hact⟩
  simp [get_api_key_user, htok, hfind]

/-- C4 witness: an inactive matching key and a nonexistent key produce
the identical 401 error. -/
theorem C4_witness :
    get_api_key_user dbInactive (some "tok1") 5 false
      = (.http ⟨401, "Invalid or inactive API key"⟩, dbInactive) ∧
    get_api_key_user emptyDB (some "tok1") 5 false
      = (.http ⟨401, "Invalid or inactive API key"⟩, emptyDB) := by
  constructor
  · exact (C4_invalid_and_inactive_same_401 dbInactive 5 false "tok1").2.2.1
      (by decide) (by decide)
  · exact (C4_invalid_and_inactive_same_401 emptyDB 5 false "tok1").2.2.1
      (by decide) (by decide)

/-- C5: the dashboard change percentage is
((current - previous) / previous) * 100 when previous > 0, is 0 when
both counts are 0, and is 100 when previous is 0 and current positive;
in particular (0,0) gives 0, (0,5) gives 100 and (10,15) gives 50. -/
theorem C5_change_percentage (p c : Nat) :
    (0 < p → change_percentage p c = (((c : Rat) - (p : Rat)) / (p : Rat)) * 100) ∧
    (p = 0 → c = 0 → change_percentage p c = 0) ∧
    (p = 0 → 0 < c → change_percentage p c = 100) ∧
    change_percentage 0 0 = 0 ∧
    change_percentage 0 5 = 100 ∧
    change_percentage 10 15 = 50 := by
  refine ⟨?_, ?_, ?_, by norm_num [change_percentage],
    by norm_num [change_percentage], by norm_num [change_percentage]⟩
  · intro hp
    simp [change_percentage, hp]
  · intro hp hc
    simp [change_percentage, hp, hc]
  · intro hp hc
    simp [change_percentage, hp, Nat.pos_iff_ne_zero.mp hc]

/-- C5 witness: the three spec instances, obtained from the theorem. -/
theorem C5_witness :
    change_percentage 10 15 = 50 ∧ change_percentage 0 0 = 0 ∧
    change_percentage 0 5 = 100 := by
  refine ⟨?_, ?_, ?_⟩
  · have h := (C5_change_percentage 10 15).1 (by norm_num)
    rw [h]; norm_num
  · exact (C5_change_percentage 0 0).2.1 rfl rfl
  · exact (C5_change_percentage 0 5).2.2.1 rfl (by norm_num)

/-- C6: over a window holding zero usage events of the key, the per-key
stats endpoint returns a well-defined record with success rate 100 and
average response time 0 (the NULL SQL aggregates are defaulted, never an
error). -/
theorem C6_zero_rows_stats (db : DB) (k : ApiKey) (s e : Nat) (ds : String)
    (h : db.usage.filter (fun ev => inKeyWindow ev k.id s e) = []) :
    get_api_key_stats db k s e ds
      = { date := ds, api_calls := 0, avg_response_time := 0,
          success_rate := 100 } := by
  simp [get_api_key_stats, h, sqlAvg, sqlSuccessRate, pyOr]

/-- C6 witness: a database with no usage events at all. -/
theorem C6_witness :
    get_api_key_stats exDB exKey 0 10 "2026-10-12"
      = { date := "2026-10-12", api_calls := 0, avg_response_time := 0,
          success_rate := 100 } :=
  C6_zero_rows_stats exDB exKey 0 10 "2026-10-12" rfl

/-- C8: role gating grants access when every required role is present
and whenever the role list contains "developer"; but a claim missing a
required role is answered with a 500 "Error retrieving user claims"
response, NOT with 403 — the 403 HTTPException raised inside the try
block is caught by the blanket except clause and re-raised as a 500. -/
theorem C8_role_gate (req roles : List String) :
    ((∀ r ∈ req, r ∈ roles) → check_role req (some roles) = .ok ()) ∧
    ("developer" ∈ roles → check_role req (some roles) = .ok ()) ∧
    check_role ["whitelisted"] (some [])
      = .http ⟨500, "Error retrieving user claims: 403 missing roles"⟩ := by
  refine ⟨?_, ?_, by decide⟩
  · intro h
    have hf : req.filter (fun r => !(roles.contains r)) = [] := by
      rw [List.filter_eq_nil_iff]
      intro r hr
      simp [h r hr]
    simp only [check_role, hf]
    simp only [ite_self, List.isEmpty_nil, if_true]
  · intro h
    have hd : roles.contains "developer" = true := by simpa using h
    simp only [check_role]
    simp [hd]
    exact fun hc => absurd h hc

/-- C8 witness: a claim holding the required role passes, a developer
claim missing it passes, and the failing input returns the 500. -/
theorem C8_witness :
    check_role ["whitelisted"] (some ["whitelisted"]) = .ok () ∧
    check_role ["whitelisted"] (some ["developer"]) = .ok () ∧
    check_role ["whitelisted"] (some [])
      = .http ⟨500, "Error retrieving user claims: 403 missing roles"⟩ := by
  refine ⟨?_, ?_, (C8_role_gate [] []).2.2⟩
  · exact (C8_role_gate ["whitelisted"] ["whitelisted"]).1 (by decide)
  · exact (C8_role_gate ["whitelisted"] ["developer"]).2.1 (by decide)

/-- C10: whenever every stored key that matches the token and the
caller fails the is_active test — which covers a nonexistent key, a key
owned by someone else, and an existing owned key with is_active false —
the bearer verify endpoint returns the one 404
"API key not found or not owned by user" error. -/
theorem C10_verify_inactive_404 (db : DB) (tok : String) (cu : User)
    (h : ∀ k ∈ db.api_keys, k.key = tok →
      k.user_firebase_uid = cu.firebase_uid → k.is_active = false) :
    verify_api_key db tok cu
      = .http ⟨404, "API key not found or not owned by user"⟩ := by
  have hfind : db.api_keys.find? (fun k =>
      k.key == tok && k.user_firebase_uid == cu.firebase_uid && k.is_active)
        = none := by
    rw [List.find?_eq_none]
    intro k hk
    simp only [Bool.and_eq_true, beq_iff_eq, not_and]
    intro ⟨hkey, hown⟩ hact
    exact absurd (h k hk hkey hown) (by simp [hact])
  simp [verify_api_key, hfind]

/-- C10 witness: an existing, owned, inactive key and a nonexistent key
give the identical 404. -/
theorem C10_witness :
    verify_api_key dbInactive "tok1" exUser
      = .http ⟨404, "API key not found or not owned by user"⟩ ∧
    verify_api_key emptyDB "tok1" exUser
      = .http ⟨404, "API key not found or not owned by user"⟩ := by
  constructor
  · exact C10_verify_inactive_404 dbInactive "tok1" exUser (by decide)
  · exact C10_verify_inactive_404 emptyDB "tok1" exUser (by decide)

/-! Helper lemmas shared by several proofs. -/

/-- Updating a key's `last_used_at` leaves the users table unchanged. -/
lemma getUser_updateKeyLastUsed (db : DB) (i now : Nat) (uid : String) :
    getUser (updateKeyLastUsed db i now) uid = getUser db uid := rfl

/-- Updating a key's `last_used_at` leaves the projects table unchanged. -/
lemma getProject_updateKeyLastUsed (db : DB) (i now : Nat) (pid : Nat) :
    getProject (updateKeyLastUsed db i now) pid = getProject db pid := rfl

/-- Updating a key's `last_used_at` leaves the usage log unchanged. -/
lemma updateKeyLastUsed_usage (db : DB) (i now : Nat) :
    (updateKeyLastUsed db i now).usage = db.usage := rfl

/-- Updating a key's `last_used_at` leaves the files table unchanged. -/
lemma getFile_updateKeyLastUsed (db : DB) (i now : Nat) (fid : Nat) :
    getFile (updateKeyLastUsed db i now) fid = getFile db fid := rfl

/-- A project found by primary key carries that id. -/
lemma getProject_id (db : DB) (pid : Nat) (p : Project)
    (h : getProject db pid = some p) : p.id = pid := by
  have h2 : db.projects.find? (fun q => q.id == pid) = some p := h
  have := List.find?_some h2
  simpa using this

/-- Successful path of `get_api_key_user`: a non-empty token matching an
active key whose owner and project rows exist yields the triple, with
`last_used_at` committed. -/
lemma get_api_key_user_ok (db : DB) (tok : String) (k : ApiKey) (u : User)
    (p : Project) (now : Nat) (htok : tok ≠ "")
    (hk : findActiveKey db tok = some k)
    (hu : getUser db k.user_firebase_uid = some u)
    (hp : getProject db k.project_id = some p) :
    get_api_key_user db (some tok) now false
      = (.ok (u, p, { k with last_used_at := some now }),
         updateKeyLastUsed db k.id now) := by
  simp [get_api_key_user, htok, hk, getUser_updateKeyLastUsed,
    getProject_updateKeyLastUsed, hu, hp]

/-- C3 counterexample: with the same valid active key, resolution
succeeds when the `last_used_at` commit succeeds but propagates an
unhandled exception when that commit fails, and a failing usage-event
commit likewise propagates out of `track_api_usage` — the persistence
failures do change the business outcome, they are not swallowed. -/
theorem C3_counterexample :
    (get_api_key_user exDB (some "tok1") 5 false).1
      = .ok (exUser, exProject, { exKey with last_used_at := some 5 }) ∧
    (get_api_key_user exDB (some "tok1") 5 true).1 = .exn "commit failed" ∧
    track_api_usage exDB "/api/v1/files/upload" "uid1" 1 7 200 2 5 true
      = (.exn "commit failed", exDB) := ⟨rfl, rfl, rfl⟩

/-- C3 amended: neither side effect is guarded by try/except — a raise
from the `last_used_at` commit propagates out of API-key resolution
(failing the request), and a raise from the usage-event commit
propagates out of `track_api_usage` into the handler. -/
theorem C3_commit_failures_escalate :
    (∀ db tok k now, tok ≠ "" → findActiveKey db tok = some k →
      (get_api_key_user db (some tok) now true).1 = .exn "commit failed") ∧
    (∀ db ep uid pid kid sc el now,
      track_api_usage db ep uid pid kid sc el now true
        = (.exn "commit failed", db)) := by
  constructor
  · intro db tok k now htok hk
    simp [get_api_key_user, htok, hk]
  · intro db ep uid pid kid sc el now
    simp [track_api_usage]

/-- C3 witness: concrete failing commits. -/
theorem C3_witness :
    (get_api_key_user exDB (some "tok1") 7 true).1 = .exn "commit failed" ∧
    track_api_usage exDB "/api/v1/files/list" "uid1" 1 7 204 2 7 true
      = (.exn "commit failed", exDB) := by
  constructor
  · exact C3_commit_failures_escalate.1 exDB "tok1" exKey 7 (by decide) rfl
  · exact C3_commit_failures_escalate.2 exDB "/api/v1/files/list" "uid1" 1 7 204 2 7

/-- C7 counterexample: a first-seen subject whose insert hits the
duplicate-key constraint violation gets the 500 "Could not create user
profile" error — the resolver does not re-read and return the
concurrently created principal. -/
theorem C7_counterexample :
    get_current_db_user emptyDB exClaim .dupKey
      = (.http ⟨500, "Could not create user profile in the database."⟩,
         emptyDB) := rfl

/-- C7 amended: an existing principal is returned as-is and a successful
insert returns the new principal, but EVERY insert failure — the
duplicate-key constraint violation included — is rolled back and
surfaced as the 500 "Could not create user profile" error; no
duplicate-key re-read exists. -/
theorem C7_insert_failures_500 (db : DB) (fu : FirebaseUser)
    (r : InsertResult) :
    (∀ u, db.users.find? (fun x => x.firebase_uid == fu.uid) = some u →
      get_current_db_user db fu r = (.ok u, db)) ∧
    (db.users.find? (fun x => x.firebase_uid == fu.uid) = none →
      r = .ok → get_current_db_user db fu r
        = (.ok { firebase_uid := fu.uid, email := fu.email },
           { db with users := db.users
              ++ [{ firebase_uid := fu.uid, email := fu.email }] })) ∧
    (db.users.find? (fun x => x.firebase_uid == fu.uid) = none →
      r ≠ .ok → get_current_db_user db fu r
        = (.http ⟨500, "Could not create user profile in the database."⟩,
           db)) := by
  refine ⟨?_, ?_, ?_⟩
  · intro u h; simp [get_current_db_user, h]
  · intro h hr; subst hr; simp [get_current_db_user, h]
  · intro h hr
    cases r with
    | ok => exact absurd rfl hr
    | dupKey => simp [get_current_db_user, h]
    | otherErr => simp [get_current_db_user, h]

/-- C7 witness: a non-duplicate persistence failure also gives the 500,
and a successful insert creates the row. -/
theorem C7_witness :
    get_current_db_user emptyDB exClaim .otherErr
      = (.http ⟨500, "Could not create user profile in the database."⟩,
         emptyDB) ∧
    get_current_db_user emptyDB exClaim .ok
      = (.ok exUser, { emptyDB with users := [exUser] }) := by
  constructor
  · exact (C7_insert_failures_500 emptyDB exClaim .otherErr).2.2 rfl (by decide)
  · exact (C7_insert_failures_500 emptyDB exClaim .ok).2.1 rfl rfl

/-- C9: for an active key matching the token whose owner or project row
is missing, resolution fails with the 401 "missing user or project"
error, yet the key with `last_used_at := now` is already in the
resulting database — the `last_used_at` commit precedes the foreign-key
resolution and is not rolled back on that failure. -/
theorem C9_last_used_persisted_before_fk (db : DB) (tok : String)
    (k : ApiKey) (now : Nat) (htok : tok ≠ "")
    (hk : findActiveKey db tok = some k)
    (hmiss : getUser db k.user_firebase_uid = none
      ∨ getProject db k.project_id = none) :
    (get_api_key_user db (some tok) now false).1
      = .http ⟨401, "API key is invalid (missing user or project)"⟩ ∧
    { k with last_used_at := some now }
      ∈ (get_api_key_user db (some tok) now false).2.api_keys := by
  have hmem : k ∈ db.api_keys := by
    have h2 : db.api_keys.find? (fun x => x.key == tok && x.is_active)
        = some k := hk
    exact List.mem_of_find?_eq_some h2
  have hupd : { k with last_used_at := some now }
      ∈ (updateKeyLastUsed db k.id now).api_keys := by
    simp only [updateKeyLastUsed, List.mem_map]
    exact ⟨k, hmem, by simp⟩
  rcases hmiss with h | h
  · constructor
    · simp [get_api_key_user, htok, hk, getUser_updateKeyLastUsed, h]
    · simp only [get_api_key_user, htok, if_neg htok, hk]
      simp [getUser_updateKeyLastUsed, h, hupd]
  · cases hu : getUser db k.user_firebase_uid with
    | none =>
      constructor
      · simp [get_api_key_user, htok, hk, getUser_updateKeyLastUsed, hu]
      · simp only [get_api_key_user, htok, if_neg htok, hk]
        simp [getUser_updateKeyLastUsed, hu, hupd]
    | some u =>
      constructor
      · simp [get_api_key_user, htok, hk, getUser_updateKeyLastUsed,
          getProject_updateKeyLastUsed, hu, h]
      · simp only [get_api_key_user, htok, if_neg htok, hk]
        simp [getUser_updateKeyLastUsed, getProject_updateKeyLastUsed,
          hu, h, hupd]

/-- C9 witness: the database holding only the dangling `exKey`. -/
theorem C9_witness :
    (get_api_key_user dbOrphan (some "tok1") 5 false).1
      = .http ⟨401, "API key is invalid (missing user or project)"⟩ ∧
    { exKey with last_used_at := some 5 }
      ∈ (get_api_key_user dbOrphan (some "tok1") 5 false).2.api_keys := by
  exact C9_last_used_persisted_before_fk dbOrphan "tok1" exKey 5
    (by decide) rfl (Or.inl rfl)

/-- C2 counterexample: a request to the project-info endpoint passes
API-key resolution and succeeds, yet the resulting database holds zero
usage events — refuting "every request that passes API-key resolution
records exactly one usage event". -/
theorem C2_counterexample :
    (get_project_info exDB (some "tok1") 5 false).1 = .ok exProject ∧
    ((get_project_info exDB (some "tok1") 5 false).2).usage = [] :=
  ⟨rfl, rfl⟩

/-- C2 amended: each API-key file endpoint — upload, list and delete —
records exactly one usage event carrying the final status code (200 on
a successful upload with the key's bound project, 500 on a failed
upload, 200 on a list, 404/403/204 on the delete branches), but the
project-info and key-stats handlers, which also pass API-key
resolution, record none. -/
theorem C2_file_endpoints_one_event (db : DB) (tok : String) (k : ApiKey)
    (u : User) (p : Project) (fn : String) (sz : Nat)
    (mg : Option String) (ts : String) (el : Rat) (now : Nat)
    (htok : tok ≠ "") (hk : findActiveKey db tok = some k)
    (hu : getUser db k.user_firebase_uid = some u)
    (hp : getProject db k.project_id = some p) :
    (∃ ev : ApiUsage,
      (upload_file db (some tok) fn sz mg ts el now false false false).2.usage
        = db.usage ++ [ev] ∧ ev.status_code = 200
        ∧ ev.project_id = k.project_id) ∧
    (∃ ev : ApiUsage,
      (upload_file db (some tok) fn sz mg ts el now false true false).2.usage
        = db.usage ++ [ev] ∧ ev.status_code = 500
        ∧ ev.project_id = k.project_id) ∧
    (∀ skp lim, ∃ ev : ApiUsage,
      (list_files_api db (some tok) skp lim el now false false).2.usage
        = db.usage ++ [ev] ∧ ev.status_code = 200
        ∧ ev.project_id = k.project_id) ∧
    (∀ fid, getFile db fid = none → ∃ ev : ApiUsage,
      (delete_file_api db (some tok) fid el now false false).2.usage
        = db.usage ++ [ev] ∧ ev.status_code = 404
        ∧ ev.project_id = k.project_id) ∧
    (∀ fid f, getFile db fid = some f → f.project_id ≠ p.id →
      ∃ ev : ApiUsage,
      (delete_file_api db (some tok) fid el now false false).2.usage
        = db.usage ++ [ev] ∧ ev.status_code = 403
        ∧ ev.project_id = k.project_id) ∧
    (∀ fid f, getFile db fid = some f → f.project_id = p.id →
      ∃ ev : ApiUsage,
      (delete_file_api db (some tok) fid el now false false).2.usage
        = db.usage ++ [ev] ∧ ev.status_code = 204
        ∧ ev.project_id = k.project_id) ∧
    (get_project_info db (some tok) now false).2.usage = db.usage ∧
    (∀ s e ds,
      (get_api_key_stats_route db (some tok) now false s e ds).2.usage
        = db.usage) := by
  have hpid : p.id = k.project_id := getProject_id db k.project_id p hp
  have hok := get_api_key_user_ok db tok k u p now htok hk hu hp
  refine ⟨?_, ?_, ?_, ?_, ?_, ?_, ?_, ?_⟩
  · refine ⟨⟨now, "/api/v1/files/upload", el, 200, u.firebase_uid, p.id, k.id⟩,
      ?_, rfl, hpid⟩
    simp only [upload_file, hok]
    simp [upload_file_body, track_api_usage, updateKeyLastUsed_usage]
  · refine ⟨⟨now, "/api/v1/files/upload", el, 500, u.firebase_uid, p.id, k.id⟩,
      ?_, rfl, hpid⟩
    simp only [upload_file, hok]
    simp [upload_file_body, track_api_usage, updateKeyLastUsed_usage]
  · intro skp lim
    refine ⟨⟨now, "/api/v1/files/list", el, 200, u.firebase_uid, p.id, k.id⟩,
      ?_, rfl, hpid⟩
    simp only [list_files_api, hok]
    simp [list_files_api_body, track_api_usage, updateKeyLastUsed_usage]
  · intro fid h
    refine ⟨⟨now, "/api/v1/files/" ++ toString fid, el, 404, u.firebase_uid,
      p.id, k.id⟩, ?_, rfl, hpid⟩
    simp only [delete_file_api, hok]
    simp [delete_file_api_body, getFile_updateKeyLastUsed, h,
      track_api_usage, updateKeyLastUsed_usage]
  · intro fid f h hne
    refine ⟨⟨now, "/api/v1/files/" ++ toString fid, el, 403, u.firebase_uid,
      p.id, k.id⟩, ?_, rfl, hpid⟩
    simp only [delete_file_api, hok]
    simp [delete_file_api_body, getFile_updateKeyLastUsed, h, hne,
      track_api_usage, updateKeyLastUsed_usage]
  · intro fid f h hfp
    refine ⟨⟨now, "/api/v1/files/" ++ toString fid, el, 204, u.firebase_uid,
      p.id, k.id⟩, ?_, rfl, hpid⟩
    simp only [delete_file_api, hok]
    simp [delete_file_api_body, getFile_updateKeyLastUsed, h, hfp,
      track_api_usage, updateKeyLastUsed_usage]
  · simp only [get_project_info, hok]
    exact updateKeyLastUsed_usage db k.id now
  · intro s e ds
    simp only [get_api_key_stats_route, hok]
    exact updateKeyLastUsed_usage db k.id now

/-- C2 witness: against `dbFiles`, the concrete upload (success and
failure), list, and all three delete branches each append exactly one
event with the final status code, while project-info and key-stats
leave the usage log unchanged. -/
theorem C2_witness :
    (∃ ev : ApiUsage,
      (upload_file dbFiles (some "tok1") "h.txt" 5 none "20260102" 2 11
          false false false).2.usage
        = dbFiles.usage ++ [ev] ∧ ev.status_code = 200
        ∧ ev.project_id = exKey.project_id) ∧
    (∃ ev : ApiUsage,
      (upload_file dbFiles (some "tok1") "h.txt" 5 none "20260102" 2 11
          false true false).2.usage
        = dbFiles.usage ++ [ev] ∧ ev.status_code = 500
        ∧ ev.project_id = exKey.project_id) ∧
    (∃ ev : ApiUsage,
      (list_files_api dbFiles (some "tok1") 0 100 2 11 false false).2.usage
        = dbFiles.usage ++ [ev] ∧ ev.status_code = 200
        ∧ ev.project_id = exKey.project_id) ∧
    (∃ ev : ApiUsage,
      (delete_file_api dbFiles (some "tok1") 99 2 11 false false).2.usage
        = dbFiles.usage ++ [ev] ∧ ev.status_code = 404
        ∧ ev.project_id = exKey.project_id) ∧
    (∃ ev : ApiUsage,
      (delete_file_api dbFiles (some "tok1") 4 2 11 false false).2.usage
        = dbFiles.usage ++ [ev] ∧ ev.status_code = 403
        ∧ ev.project_id = exKey.project_id) ∧
    (∃ ev : ApiUsage,
      (delete_file_api dbFiles (some "tok1") 3 2 11 false false).2.usage
        = dbFiles.usage ++ [ev] ∧ ev.status_code = 204
        ∧ ev.project_id = exKey.project_id) ∧
    (get_project_info dbFiles (some "tok1") 11 false).2.usage
      = dbFiles.usage ∧
    (get_api_key_stats_route dbFiles (some "tok1") 11 false 0 10
        "2026-10-12").2.usage = dbFiles.usage := by
  obtain ⟨c1, c2, c3, c4, c5, c6, c7, c8⟩ :=
    C2_file_endpoints_one_event dbFiles "tok1" exKey exUser exProject
      "h.txt" 5 none "20260102" 2 11 (by decide) rfl rfl rfl
  exact ⟨c1, c2, c3 0 100, c4 99 rfl, c5 4 exFileForeign rfl (by decide),
    c6 3 exFile rfl rfl, c7, c8 0 10 "2026-10-12"⟩

end OpenUpload
